import Mathlib

/-!
Shallow embedding of the inventory/sales consistency engine of the
point-of-sale backend (repository DavidSantisteban/ING_SOFTWARE_III).

The repository ships its HTTP view layer in
`src/Prototipos/Prototipo1/views/api_views.py`.  The controller classes it
calls (`ControladorVentas`, `ControladorInventario`, `ControladorReportes`)
and the ORM models are not part of the sources; wherever a definition below
depends on them it is modelled from the specification, and its doc comment
says so.  Everything taken from `api_views.py` cites the lines it embeds.

Modelling conventions: machine integers are `Int`/`Nat`; monetary amounts
are `Int` (the claims never exercise float rounding); timestamps are a
record of calendar fields mirroring what `datetime.replace` manipulates;
fallible operations return `Except ApiError Store` where an `.error` result
models a raised exception / rolled-back transaction (the caller keeps the
pre-call state).
-/

/-- Movement types of an `InventoryMovement` row: stock-in, stock-out,
sale deduction, and void-restock. -/
inductive TipoMovimiento where
  | entrada
  | salida
  | venta
  | anulacion
  deriving DecidableEq

/-- A timestamp, mirroring the fields `datetime.replace` manipulates in
`obtener_ventas` (src lines 270-274): a day index plus hour, minute,
second and microsecond within the day. -/
structure FechaHora where
  dia : Nat
  hora : Nat
  minuto : Nat
  segundo : Nat
  microsegundo : Nat
  deriving DecidableEq

/-- Python `t.replace(hour := h, minute := m, second := s)`: the day and the
microsecond are left untouched. -/
def reemplazar (t : FechaHora) (h m s : Nat) : FechaHora :=
  { t with hora := h, minuto := m, segundo := s }

/-- Midnight of the day of `t`. -/
def inicioDelDia (t : FechaHora) : FechaHora :=
  { t with hora := 0, minuto := 0, segundo := 0, microsegundo := 0 }

/-- Total order key of a timestamp, in microseconds. -/
def clave (t : FechaHora) : Nat :=
  ((((t.dia * 24 + t.hora) * 60 + t.minuto) * 60 + t.segundo) * 1000000 + t.microsegundo)

/-- Error taxonomy of the spec (§7).  Controllers signal these; the view
layer maps them to HTTP responses. -/
inductive ApiError where
  | validationError (msg : String)
  | notFoundError (msg : String)
  | conflictError (msg : String)
  | authorizationError (msg : String)
  deriving DecidableEq

/-- An HTTPException as raised by the views: status code and detail. -/
structure HttpError where
  status_code : Nat
  detail : String
  deriving DecidableEq

/-- Message carried by a controller error. -/
def mensajeDe : ApiError → String
  | .validationError m => m
  | .notFoundError m => m
  | .conflictError m => m
  | .authorizationError m => m

/-- The views surface a controller error dict as HTTP 400 with its message
(src lines 349-350, 375-376, 469-470). -/
def aHttp (e : ApiError) : HttpError :=
  ⟨400, mensajeDe e⟩

/-- Product row (spec §3; field names as serialised in src lines 114-124). -/
structure Producto where
  id : Nat
  codigo : String
  nombre : String
  categoria : String
  precio_venta : Int
  costo : Int
  stock_actual : Int
  stock_minimo : Int
  descripcion : String
  activo : Bool
  deriving DecidableEq

/-- Sale line item (spec §3; serialised fields in src lines 288-295). -/
structure ItemVenta where
  venta_id : Nat
  producto_id : Nat
  cantidad : Nat
  precio_unitario : Int
  subtotal : Int
  deriving DecidableEq

/-- Sale row (spec §3; serialised fields in src lines 282-287).  Estado is
the string `completada` or `anulada`. -/
structure Venta where
  id : Nat
  fecha_venta : FechaHora
  total : Int
  estado : String
  usuario_id : Nat
  items : List ItemVenta
  deriving DecidableEq

/-- Inventory movement row (spec §3; serialised fields in src lines 438-446). -/
structure MovimientoInventario where
  producto_id : Nat
  tipo_movimiento : TipoMovimiento
  cantidad : Nat
  stock_anterior : Int
  stock_nuevo : Int
  motivo : String
  usuario_id : Nat
  fecha_movimiento : FechaHora
  deriving DecidableEq

/-- Audit row, as built by the views (src lines 157-162, 201-206, 238-243). -/
structure RegistroAuditoria where
  usuario_id : Nat
  tipo_accion : String
  descripcion : String
  fecha_accion : FechaHora
  deriving DecidableEq

/-- The Ledger Store: the five entity tables (SaleItems live inside their
Sale, which owns them one-to-many). -/
structure Store where
  productos : List Producto
  ventas : List Venta
  movimientos : List MovimientoInventario
  auditorias : List RegistroAuditoria
  deriving DecidableEq

/-- Authenticated caller as stored in the session map (src lines 59-64). -/
structure Usuario where
  usuario_id : Nat
  nombre : String
  rol : String
  email : String
  deriving DecidableEq

/-- Payload of POST /api/productos (src lines 145-154): required fields plus
the three optional ones read with `datos.get`. -/
structure DatosProducto where
  codigo : String
  nombre : String
  categoria : String
  precio_venta : Int
  costo : Int
  stock_actual : Option Int
  stock_minimo : Option Int
  descripcion : Option String
  deriving DecidableEq

/-- Payload of PUT /api/productos/id (src lines 194-199): all fields
required except descripcion, read with `datos.get`. -/
structure DatosActualizacion where
  nombre : String
  categoria : String
  precio_venta : Int
  costo : Int
  stock_minimo : Int
  descripcion : Option String
  deriving DecidableEq

/-- Payload of POST /api/inventario/movimientos. -/
structure DatosMovimiento where
  producto_id : Nat
  tipo : TipoMovimiento
  cantidad : Nat
  motivo : String
  deriving DecidableEq

/-- First product with the given id (`db.query(Producto).filter(id).first()`). -/
def buscarProducto (st : Store) (pid : Nat) : Option Producto :=
  st.productos.find? (fun p => p.id == pid)

/-- First sale with the given id. -/
def buscarVenta (st : Store) (vid : Nat) : Option Venta :=
  st.ventas.find? (fun v => v.id == vid)

/-- Write the stock of the product with the given id. -/
def actualizarStock (ps : List Producto) (pid : Nat) (v : Int) : List Producto :=
  ps.map (fun p => if p.id == pid then { p with stock_actual := v } else p)

/-- Stock read for a product id (0 when the product is absent). -/
def stockDe (st : Store) (pid : Nat) : Int :=
  ((buscarProducto st pid).map Producto.stock_actual).getD 0

/-- Number of movement rows recorded for a product. -/
def movimientosDe (st : Store) (pid : Nat) : Nat :=
  (st.movimientos.filter (fun m => m.producto_id == pid)).length

/-- State observed by the caller after an operation: the new store on
success, the unchanged pre-call store on a rolled-back error. -/
def correr (st : Store) (r : Except ApiError Store) : Store :=
  match r with
  | .ok s => s
  | .error _ => st

/-- Caller-observed state for a view-level (HTTP) operation. -/
def correrHttp (st : Store) (r : Except HttpError Store) : Store :=
  match r with
  | .ok s => s
  | .error _ => st

/-- Signed stock delta of a movement (spec §3: stock is the sum of all
signed movement quantities; entrada and void-restock add, salida and sale
deduct). -/
def cantidadConSigno (tipo : TipoMovimiento) (c : Nat) : Int :=
  match tipo with
  | .entrada => (c : Int)
  | .anulacion => (c : Int)
  | .salida => -(c : Int)
  | .venta => -(c : Int)

/-- Modelled from the spec: core of `ControladorInventario.registrar_movimiento`
(spec §4.1; the controller class is not in the sources).  Validates that the
product exists and is active, computes the new stock from the signed
quantity, fails with ValidationError when it would go negative, and in one
transaction updates the stock and appends a movement row with before/after
snapshots.  The audit entry of the top-level operation is added by
`registrar_movimiento`; `registrar_venta` reuses this core per line. -/
def aplicarMovimiento (st : Store) (pid : Nat) (tipo : TipoMovimiento) (c : Nat)
    (motivo : String) (actor : Nat) (ahora : FechaHora) : Except ApiError Store :=
  match buscarProducto st pid with
  | none => .error (.notFoundError "Producto no encontrado")
  | some p =>
    if p.activo = false then .error (.notFoundError "Producto no encontrado")
    else if p.stock_actual + cantidadConSigno tipo c < 0 then
      .error (.validationError "Stock insuficiente")
    else .ok { st with
      productos := actualizarStock st.productos pid (p.stock_actual + cantidadConSigno tipo c),
      movimientos := st.movimientos ++
        [{ producto_id := pid, tipo_movimiento := tipo, cantidad := c,
           stock_anterior := p.stock_actual,
           stock_nuevo := p.stock_actual + cantidadConSigno tipo c,
           motivo := motivo, usuario_id := actor, fecha_movimiento := ahora }] }

/-- Modelled from the spec: `ControladorInventario.registrar_movimiento`
(spec §4.1, §6; the controller class is not in the sources).  Applies the
movement and, on success, appends the single audit entry every mutating
operation records. -/
def registrar_movimiento (st : Store) (pid : Nat) (tipo : TipoMovimiento) (c : Nat)
    (motivo : String) (actor : Nat) (ahora : FechaHora) : Except ApiError Store :=
  match aplicarMovimiento st pid tipo c motivo actor ahora with
  | .error e => .error e
  | .ok st1 => .ok { st1 with
      auditorias := st1.auditorias ++
        [{ usuario_id := actor, tipo_accion := "movimiento_inventario",
           descripcion := motivo, fecha_accion := ahora }] }

/-- Modelled from the spec: step 2 and 3 of `register_sale` (spec §4.2; the
controller class is not in the sources).  For each line in order, load the
product — NotFoundError if missing or inactive, ValidationError if the
requested quantity exceeds the current stock — and snapshot the unit price
into the item. -/
def construirItems (st : Store) (vid : Nat) : List (Nat × Nat) → Except ApiError (List ItemVenta)
  | [] => .ok []
  | (pid, c) :: resto =>
    match buscarProducto st pid with
    | none => .error (.notFoundError "Producto no encontrado")
    | some p =>
      if p.activo = false then .error (.notFoundError "Producto no encontrado")
      else if p.stock_actual < (c : Int) then .error (.validationError "Stock insuficiente")
      else
        match construirItems st vid resto with
        | .error e => .error e
        | .ok items =>
          .ok ({ venta_id := vid, producto_id := pid, cantidad := c,
                 precio_unitario := p.precio_venta,
                 subtotal := p.precio_venta * (c : Int) } :: items)

/-- Modelled from the spec: step 4 of `register_sale` (spec §4.2) — one
`sale` movement with negated quantity per line, applied sequentially inside
the sale transaction. -/
def aplicarLineas (actor : Nat) (ahora : FechaHora) (st : Store) :
    List (Nat × Nat) → Except ApiError Store
  | [] => .ok st
  | (pid, c) :: resto =>
    match aplicarMovimiento st pid .venta c "Venta" actor ahora with
    | .error e => .error e
    | .ok st1 => aplicarLineas actor ahora st1 resto

/-- Modelled from the spec: `ControladorVentas.registrar_venta` (spec §4.2,
§6; the controller class is not in the sources).  Rejects an empty item
list, validates every line and snapshots prices, then atomically deducts
stock per line, persists the completed sale with total = Σ subtotals, and
appends the operation's single audit entry.  Any failure returns an error
and the caller keeps the pre-call state (full rollback). -/
def registrar_venta (st : Store) (lineas : List (Nat × Nat)) (actor : Nat)
    (ahora : FechaHora) : Except ApiError Store :=
  if lineas.isEmpty then .error (.validationError "La venta debe tener al menos un item")
  else
    match construirItems st st.ventas.length lineas with
    | .error e => .error e
    | .ok items =>
      match aplicarLineas actor ahora st lineas with
      | .error e => .error e
      | .ok st1 =>
        .ok { st1 with
          ventas := st1.ventas ++
            [{ id := st.ventas.length, fecha_venta := ahora,
               total := (items.map (fun it => it.subtotal)).sum,
               estado := "completada", usuario_id := actor, items := items }],
          auditorias := st1.auditorias ++
            [{ usuario_id := actor, tipo_accion := "registro_venta",
               descripcion := "Venta registrada", fecha_accion := ahora }] }

/-- Modelled from the spec: the void-restock issued per SaleItem by
`void_sale` (spec §4.2: "issues a void-restock InventoryMovement restoring
the original quantity"; the controller class is not in the sources).  The
restock adds the item's quantity back and records the movement; unlike a
caller-initiated movement it lists no failure mode besides the product
being unresolvable. -/
def restaurarItem (actor : Nat) (motivo : String) (ahora : FechaHora) (st : Store)
    (it : ItemVenta) : Except ApiError Store :=
  match buscarProducto st it.producto_id with
  | none => .error (.notFoundError "Producto no encontrado")
  | some p =>
    .ok { st with
      productos := actualizarStock st.productos it.producto_id (p.stock_actual + (it.cantidad : Int)),
      movimientos := st.movimientos ++
        [{ producto_id := it.producto_id, tipo_movimiento := .anulacion,
           cantidad := it.cantidad, stock_anterior := p.stock_actual,
           stock_nuevo := p.stock_actual + (it.cantidad : Int),
           motivo := motivo, usuario_id := actor, fecha_movimiento := ahora }] }

/-- Modelled from the spec: restock of all items of a voided sale, in order. -/
def restaurarItems (actor : Nat) (motivo : String) (ahora : FechaHora) (st : Store) :
    List ItemVenta → Except ApiError Store
  | [] => .ok st
  | it :: resto =>
    match restaurarItem actor motivo ahora st it with
    | .error e => .error e
    | .ok st1 => restaurarItems actor motivo ahora st1 resto

/-- Modelled from the spec: `ControladorVentas.anular_venta` (spec §4.2, §6;
the controller class is not in the sources).  NotFoundError if the sale is
missing; ConflictError unless its status is `completada`; otherwise
atomically restocks every item, marks the sale `anulada`, and appends the
operation's single audit entry. -/
def anular_venta (st : Store) (ventaId : Nat) (actor : Nat) (motivo : String)
    (ahora : FechaHora) : Except ApiError Store :=
  match buscarVenta st ventaId with
  | none => .error (.notFoundError "Venta no encontrada")
  | some v =>
    if v.estado = "completada" then
      match restaurarItems actor motivo ahora st v.items with
      | .error e => .error e
      | .ok st1 =>
        .ok { st1 with
          ventas := st1.ventas.map
            (fun w => if w.id == ventaId then { w with estado := "anulada" } else w),
          auditorias := st1.auditorias ++
            [{ usuario_id := actor, tipo_accion := "anulacion_venta",
               descripcion := motivo, fecha_accion := ahora }] }
    else .error (.conflictError "Solo se pueden anular ventas completadas")

/-- Sum of totals of completed sales whose timestamp key lies in the
half-open range of keys. -/
def totalEnRango (st : Store) (i f : Nat) : Int :=
  ((st.ventas.filter (fun v =>
      v.estado == "completada" && decide (i ≤ clave v.fecha_venta)
        && decide (clave v.fecha_venta < f))).map (fun v => v.total)).sum

/-- Modelled from the spec: the percentage delta of `sales_indicators`
(spec §4.3) — null when the prior period has zero sales, never a division
by zero. -/
def calcularDelta (anterior actual : Int) : Option Rat :=
  if anterior = 0 then none
  else some (((actual : Rat) - (anterior : Rat)) * 100 / (anterior : Rat))

/-- Result of the sales-indicators report. -/
structure Indicadores where
  total_actual : Int
  total_anterior : Int
  delta_porcentual : Option Rat
  deriving DecidableEq

/-- Modelled from the spec: `ControladorReportes.obtener_indicadores_ventas`
(spec §4.3, §6; the controller class is not in the sources).  The current
period defaults to start-of-today .. now; the prior period is the
immediately preceding interval of equal length; the delta is null when the
prior period has zero sales. -/
def obtener_indicadores_ventas (st : Store) (ahora : FechaHora)
    (inicio fin : Option FechaHora) : Indicadores :=
  let f := clave (fin.getD ahora)
  let i := clave (inicio.getD (inicioDelDia ahora))
  let actual := totalEnRango st i f
  let anterior := totalEnRango st (i - (f - i)) i
  { total_actual := actual, total_anterior := anterior,
    delta_porcentual := calcularDelta anterior actual }

/-- Translated from src lines 127-172 (`crear_producto`): only role
`administradora` may create; duplicate code is HTTP 409; optional payload
fields default to stock 0, minimum 5, empty description; the new product is
persisted together with exactly one audit row.  The fresh id is supplied by
the store layer. -/
def crear_producto (st : Store) (usuario : Usuario) (datos : DatosProducto)
    (nuevoId : Nat) (ahora : FechaHora) : Except HttpError Store :=
  if usuario.rol ≠ "administradora" then
    .error ⟨403, "No tiene permisos para crear productos"⟩
  else if (st.productos.find? (fun p => p.codigo == datos.codigo)).isSome then
    .error ⟨409, "El código del producto ya existe"⟩
  else
    .ok { st with
      productos := st.productos ++
        [{ id := nuevoId, codigo := datos.codigo, nombre := datos.nombre,
           categoria := datos.categoria, precio_venta := datos.precio_venta,
           costo := datos.costo, stock_actual := datos.stock_actual.getD 0,
           stock_minimo := datos.stock_minimo.getD 5,
           descripcion := datos.descripcion.getD "", activo := true }],
      auditorias := st.auditorias ++
        [{ usuario_id := usuario.usuario_id, tipo_accion := "creacion_producto",
           descripcion := "Producto creado: " ++ datos.nombre ++ " (" ++ datos.codigo ++ ")",
           fecha_accion := ahora }] }

/-- Translated from src lines 175-216 (`actualizar_producto`): only role
`administradora`; HTTP 404 when the product id is unknown; overwrites name,
category, sale price, cost, minimum stock and description (defaulting to
empty) and appends exactly one audit row. -/
def actualizar_producto (st : Store) (usuario : Usuario) (productoId : Nat)
    (datos : DatosActualizacion) (ahora : FechaHora) : Except HttpError Store :=
  if usuario.rol ≠ "administradora" then
    .error ⟨403, "No tiene permisos para editar productos"⟩
  else
    match buscarProducto st productoId with
    | none => .error ⟨404, "Producto no encontrado"⟩
    | some _ =>
      .ok { st with
        productos := st.productos.map (fun p =>
          if p.id == productoId then
            { p with nombre := datos.nombre, categoria := datos.categoria,
                     precio_venta := datos.precio_venta, costo := datos.costo,
                     stock_minimo := datos.stock_minimo,
                     descripcion := datos.descripcion.getD "" }
          else p),
        auditorias := st.auditorias ++
          [{ usuario_id := usuario.usuario_id, tipo_accion := "edicion_producto",
             descripcion := "Producto actualizado: " ++ datos.nombre ++ " (ID: "
               ++ toString productoId ++ ")",
             fecha_accion := ahora }] }

/-- Translated from src lines 219-253 (`eliminar_producto`): only role
`administradora`; HTTP 404 when the product id is unknown; soft-deletes by
setting activo to false and appends exactly one audit row. -/
def eliminar_producto (st : Store) (usuario : Usuario) (productoId : Nat)
    (ahora : FechaHora) : Except HttpError Store :=
  if usuario.rol ≠ "administradora" then
    .error ⟨403, "No tiene permisos para eliminar productos"⟩
  else
    match buscarProducto st productoId with
    | none => .error ⟨404, "Producto no encontrado"⟩
    | some p =>
      .ok { st with
        productos := st.productos.map (fun q =>
          if q.id == productoId then { q with activo := false } else q),
        auditorias := st.auditorias ++
          [{ usuario_id := usuario.usuario_id, tipo_accion := "eliminacion_producto",
             descripcion := "Producto desactivado: " ++ p.nombre ++ " (ID: "
               ++ toString productoId ++ ")",
             fecha_accion := ahora }] }

/-- Translated from src lines 337-352 (`crear_venta`): any authenticated
caller; delegates to the sales controller with the caller's user id and
maps a controller error to HTTP 400. -/
def crear_venta (st : Store) (usuario : Usuario) (lineas : List (Nat × Nat))
    (ahora : FechaHora) : Except HttpError Store :=
  match registrar_venta st lineas usuario.usuario_id ahora with
  | .error e => .error (aHttp e)
  | .ok st1 => .ok st1

/-- Translated from src lines 355-383 (view `anular_venta`): only role
`administradora`; delegates to the sales controller and maps a controller
error to HTTP 400. -/
def anular_venta_http (st : Store) (usuario : Usuario) (ventaId : Nat)
    (motivo : String) (ahora : FechaHora) : Except HttpError Store :=
  if usuario.rol ≠ "administradora" then
    .error ⟨403, "No tiene permisos para anular ventas"⟩
  else
    match anular_venta st ventaId usuario.usuario_id motivo ahora with
    | .error e => .error (aHttp e)
    | .ok st1 => .ok st1

/-- Translated from src lines 457-472 (`registrar_movimiento_inventario`):
any authenticated caller; delegates to the inventory controller with the
caller's user id and maps a controller error to HTTP 400. -/
def registrar_movimiento_inventario (st : Store) (usuario : Usuario)
    (datos : DatosMovimiento) (ahora : FechaHora) : Except HttpError Store :=
  match registrar_movimiento st datos.producto_id datos.tipo datos.cantidad
      datos.motivo usuario.usuario_id ahora with
  | .error e => .error (aHttp e)
  | .ok st1 => .ok st1

/-- Translated from src lines 269-274 (`obtener_ventas`): the period used
when listing sales.  With a date given, the range is that instant up to the
same instant with the time replaced by 23:59:59; without one, both bounds
come from the current instant, the start with the time replaced by 00:00:00
and the end by 23:59:59 — `datetime.replace` keeps the microsecond in all
cases. -/
def rangoFechasVentas (ahora : FechaHora) (fecha : Option FechaHora) :
    FechaHora × FechaHora :=
  match fecha with
  | some f => (f, reemplazar f 23 59 59)
  | none => (reemplazar ahora 0 0 0, reemplazar ahora 23 59 59)

/-- One call of the claim-level movement sequence: the arguments a caller
passes to `registrar_movimiento`. -/
structure OpMovimiento where
  tipo : TipoMovimiento
  cantidad : Nat
  motivo : String
  actor : Nat
  fecha : FechaHora
  deriving DecidableEq

/-- A sequence of `registrar_movimiento` calls against one product, stopping
at the first failure. -/
def aplicarSecuencia (st : Store) (pid : Nat) : List OpMovimiento → Except ApiError Store
  | [] => .ok st
  | op :: resto =>
    match registrar_movimiento st pid op.tipo op.cantidad op.motivo op.actor op.fecha with
    | .error e => .error e
    | .ok st1 => aplicarSecuencia st1 pid resto

/-- Sum of the signed quantities of a sequence of movement calls. -/
def sumaConSigno (ops : List OpMovimiento) : Int :=
  (ops.map (fun o => cantidadConSigno o.tipo o.cantidad)).sum

/-- Sum of the quantities of the sale items that reference a product. -/
def sumaCantidades (items : List ItemVenta) (pid : Nat) : Int :=
  ((items.filter (fun it => it.producto_id == pid)).map (fun it => (it.cantidad : Int))).sum

/-! ## Helper lemmas -/

/-- Updating the elements of a list that carry key k, by a key-preserving
function, turns the first element found under key k into its image. -/
lemma find?_map_si_eq {α : Type} (idOf : α → Nat) (f : α → α)
    (hf : ∀ a, idOf (f a) = idOf a) (l : List α) (k : Nat) :
    (l.map (fun a => if idOf a == k then f a else a)).find? (fun a => idOf a == k)
      = (l.find? (fun a => idOf a == k)).map f := by
  induction l with
  | nil => rfl
  | cons a l ih =>
    by_cases h : idOf a = k
    · simp only [List.map_cons]
      rw [if_pos (by simp [h])]
      rw [List.find?_cons_of_pos _ (by simp [hf, h]),
        List.find?_cons_of_pos _ (by simp [h])]
      rfl
    · simp only [List.map_cons]
      rw [if_neg (by simp [h])]
      rw [List.find?_cons_of_neg _ (by simp [h]),
        List.find?_cons_of_neg _ (by simp [h]), ih]

/-- Updating the elements carrying key k, by a key-preserving function,
leaves the search under any other key unchanged. -/
lemma find?_map_si_ne {α : Type} (idOf : α → Nat) (f : α → α)
    (hf : ∀ a, idOf (f a) = idOf a) (l : List α) (k k' : Nat) (hk : k' ≠ k) :
    (l.map (fun a => if idOf a == k then f a else a)).find? (fun a => idOf a == k')
      = l.find? (fun a => idOf a == k') := by
  induction l with
  | nil => rfl
  | cons a l ih =>
    by_cases h : idOf a = k
    · simp only [List.map_cons]
      rw [if_pos (by simp [h])]
      rw [List.find?_cons_of_neg _ (by simp [hf, h]; omega),
        List.find?_cons_of_neg _ (by simp [h]; omega), ih]
    · simp only [List.map_cons]
      rw [if_neg (by simp [h])]
      by_cases h' : idOf a = k'
      · rw [List.find?_cons_of_pos _ (by simp [h']),
          List.find?_cons_of_pos _ (by simp [h'])]
      · rw [List.find?_cons_of_neg _ (by simp [h']),
          List.find?_cons_of_neg _ (by simp [h']), ih]

/-- Searching the updated stock list under the updated id. -/
lemma buscar_actualizar_eq (ps : List Producto) (pid : Nat) (v : Int) :
    (actualizarStock ps pid v).find? (fun p => p.id == pid)
      = (ps.find? (fun p => p.id == pid)).map (fun p => { p with stock_actual := v }) :=
  find?_map_si_eq (fun p => p.id) (fun p => { p with stock_actual := v })
    (fun _ => rfl) ps pid

/-- Searching the updated stock list under any other id. -/
lemma buscar_actualizar_ne (ps : List Producto) (pid qid : Nat) (v : Int)
    (h : qid ≠ pid) :
    (actualizarStock ps pid v).find? (fun p => p.id == qid)
      = ps.find? (fun p => p.id == qid) :=
  find?_map_si_ne (fun p => p.id) (fun p => { p with stock_actual := v })
    (fun _ => rfl) ps pid qid h

/-- What a successful core movement application does to the store. -/
lemma aplicarMovimiento_ok {st : Store} {pid : Nat} {tipo : TipoMovimiento} {c : Nat}
    {motivo : String} {actor : Nat} {ahora : FechaHora} {st' : Store}
    (h : aplicarMovimiento st pid tipo c motivo actor ahora = .ok st') :
    stockDe st' pid = stockDe st pid + cantidadConSigno tipo c ∧
    (∀ qid, qid ≠ pid → stockDe st' qid = stockDe st qid) ∧
    (∃ m : MovimientoInventario, st'.movimientos = st.movimientos ++ [m] ∧
      m.producto_id = pid ∧ m.tipo_movimiento = tipo ∧ m.cantidad = c) ∧
    st'.ventas = st.ventas ∧ st'.auditorias = st.auditorias ∧
    (∀ qid, (buscarProducto st' qid).isSome = (buscarProducto st qid).isSome) := by
  unfold aplicarMovimiento at h
  split at h
  · exact absurd h (by simp)
  · rename_i p hp
    split at h
    · exact absurd h (by simp)
    · split at h
      · exact absurd h (by simp)
      · have hst := Except.ok.inj h
        subst hst
        refine ⟨?_, ?_, ⟨_, rfl, rfl, rfl, rfl⟩, rfl, rfl, ?_⟩
        · unfold stockDe buscarProducto
          show ((((actualizarStock st.productos pid
              (p.stock_actual + cantidadConSigno tipo c)).find?
              (fun q => q.id == pid)).map Producto.stock_actual).getD 0) = _
          rw [buscar_actualizar_eq]
          unfold buscarProducto at hp
          rw [hp]
          rfl
        · intro qid hq
          unfold stockDe buscarProducto
          show ((((actualizarStock st.productos pid
              (p.stock_actual + cantidadConSigno tipo c)).find?
              (fun q => q.id == qid)).map Producto.stock_actual).getD 0) = _
          rw [buscar_actualizar_ne _ _ _ _ hq]
        · intro qid
          by_cases hq : qid = pid
          · subst hq
            unfold buscarProducto
            show ((actualizarStock st.productos qid
                (p.stock_actual + cantidadConSigno tipo c)).find?
                (fun q => q.id == qid)).isSome = _
            rw [buscar_actualizar_eq]
            unfold buscarProducto at hp
            rw [hp]
            rfl
          · unfold buscarProducto
            show ((actualizarStock st.productos pid
                (p.stock_actual + cantidadConSigno tipo c)).find?
                (fun q => q.id == qid)).isSome = _
            rw [buscar_actualizar_ne _ _ _ _ hq]

/-- Appending one movement row that references `pid` increments the count of
rows for `pid` by one. -/
lemma movimientosDe_append_uno {st st1 : Store} {m : MovimientoInventario} {pid : Nat}
    (hm : st1.movimientos = st.movimientos ++ [m]) (hpid : m.producto_id = pid) :
    movimientosDe st1 pid = movimientosDe st pid + 1 := by
  unfold movimientosDe
  rw [hm, List.filter_append, List.length_append]
  simp [hpid]

/-- What a successful top-level `registrar_movimiento` does to the store:
the stock of the product moves by the signed quantity, other stocks are
untouched, exactly one movement row for the product and exactly one audit
row are appended, and sales are untouched. -/
lemma registrar_movimiento_ok {st : Store} {pid : Nat} {tipo : TipoMovimiento} {c : Nat}
    {motivo : String} {actor : Nat} {ahora : FechaHora} {st' : Store}
    (h : registrar_movimiento st pid tipo c motivo actor ahora = .ok st') :
    stockDe st' pid = stockDe st pid + cantidadConSigno tipo c ∧
    (∀ qid, qid ≠ pid → stockDe st' qid = stockDe st qid) ∧
    (∃ m : MovimientoInventario, st'.movimientos = st.movimientos ++ [m] ∧
      m.producto_id = pid ∧ m.tipo_movimiento = tipo ∧ m.cantidad = c) ∧
    st'.ventas = st.ventas ∧
    st'.auditorias = st.auditorias ++
      [{ usuario_id := actor, tipo_accion := "movimiento_inventario",
         descripcion := motivo, fecha_accion := ahora }] ∧
    (∀ qid, (buscarProducto st' qid).isSome = (buscarProducto st qid).isSome) := by
  unfold registrar_movimiento at h
  split at h
  · exact absurd h (by simp)
  · rename_i st1 h1
    have hst := Except.ok.inj h
    subst hst
    obtain ⟨h2, h3, h4, h5, h6, h7⟩ := aplicarMovimiento_ok h1
    exact ⟨h2, h3, h4, h5, by rw [h6], h7⟩

/-- Induction core of claim C1 over the sequence of calls. -/
lemma aplicarSecuencia_spec (pid : Nat) (ops : List OpMovimiento) :
    ∀ st st', aplicarSecuencia st pid ops = .ok st' →
      stockDe st' pid = stockDe st pid + sumaConSigno ops ∧
      movimientosDe st' pid = movimientosDe st pid + ops.length := by
  induction ops with
  | nil =>
    intro st st' h
    have hst := Except.ok.inj h
    subst hst
    simp [sumaConSigno]
  | cons op resto ih =>
    intro st st' h
    unfold aplicarSecuencia at h
    split at h
    · exact absurd h (by simp)
    · rename_i st1 h1
      obtain ⟨hs, _, ⟨m, hm, hmp, _, _⟩, _, _, _⟩ := registrar_movimiento_ok h1
      obtain ⟨ihs, ihm⟩ := ih st1 st' h
      constructor
      · rw [ihs, hs]
        unfold sumaConSigno
        simp only [List.map_cons, List.sum_cons]
        omega
      · rw [ihm, movimientosDe_append_uno hm hmp, List.length_cons]
        omega

/-! ## Concrete fixtures used by the witnesses -/

/-- Structural equality of operation results is decidable, so witnesses can
evaluate operations on concrete inputs. -/
instance {ε α : Type} [DecidableEq ε] [DecidableEq α] : DecidableEq (Except ε α) := fun a b =>
  match a, b with
  | .ok x, .ok y =>
    if h : x = y then .isTrue (by rw [h]) else .isFalse (by intro hc; cases hc; exact h rfl)
  | .error x, .error y =>
    if h : x = y then .isTrue (by rw [h]) else .isFalse (by intro hc; cases hc; exact h rfl)
  | .ok _, .error _ => .isFalse (by intro hc; cases hc)
  | .error _, .ok _ => .isFalse (by intro hc; cases hc)

/-- A fixed timestamp. -/
def fechaW : FechaHora := ⟨0, 10, 0, 0, 0⟩

/-- The product of the spec scenario after its sale: id 1, code A1, price 5,
cost 2, stock 7, minimum 5, active. -/
def productoW : Producto := ⟨1, "A1", "Uno", "c", 5, 2, 7, 5, "", true⟩

/-- The completed sale of the spec scenario: three units of product 1. -/
def ventaW : Venta := ⟨0, fechaW, 15, "completada", 7, [⟨0, 1, 3, 5, 15⟩]⟩

/-- A store with one active product (id 1, stock 7) and one completed sale
(id 0) of three units of it, as in the spec scenario. -/
def stW : Store :=
  ⟨[productoW], [ventaW], [⟨1, .venta, 3, 10, 7, "Venta", 7, fechaW⟩], []⟩

/-- A caller with the staff role. -/
def usuarioVendedora : Usuario := ⟨9, "Vera", "vendedora", "v@e"⟩

/-- A caller with the administrator role. -/
def usuarioAdmin : Usuario := ⟨7, "Ada", "administradora", "a@e"⟩

/-- Two movement calls against product 1 of `stW`. -/
def opsW : List OpMovimiento :=
  [⟨.entrada, 4, "compra", 7, fechaW⟩, ⟨.salida, 3, "merma", 7, fechaW⟩]

/-! ## Claims -/

/-- C1: for every product and every sequence of N successful
`registrar_movimiento` calls applied to it, the product's stock afterwards
equals its initial stock plus the sum of the signed movement quantities,
and exactly N new `MovimientoInventario` rows exist for it — each stock
mutation is paired with its movement row in the same transaction. -/
theorem stock_es_suma_de_movimientos (st : Store) (pid : Nat)
    (ops : List OpMovimiento) (st' : Store)
    (h : aplicarSecuencia st pid ops = .ok st') :
    stockDe st' pid = stockDe st pid + sumaConSigno ops ∧
    movimientosDe st' pid = movimientosDe st pid + ops.length :=
  aplicarSecuencia_spec pid ops st st' h

/-- Witness for C1 at the concrete store `stW`, product 1 and the two-call
sequence `opsW`. -/
theorem stock_es_suma_de_movimientos_witness :
    aplicarSecuencia stW 1 opsW = .ok (correr stW (aplicarSecuencia stW 1 opsW)) ∧
    (stockDe (correr stW (aplicarSecuencia stW 1 opsW)) 1 = stockDe stW 1 + sumaConSigno opsW ∧
     movimientosDe (correr stW (aplicarSecuencia stW 1 opsW)) 1 = movimientosDe stW 1 + opsW.length) :=
  ⟨by decide, stock_es_suma_de_movimientos stW 1 opsW _ (by decide)⟩

/-- A sale line whose product resolves and is active. -/
def lineaValida (st : Store) (l : Nat × Nat) : Prop :=
  ∃ p, buscarProducto st l.1 = some p ∧ p.activo = true

/-- A sale line whose product resolves but whose requested quantity exceeds
the current stock. -/
def lineaExcedida (st : Store) (l : Nat × Nat) : Prop :=
  ∃ p, buscarProducto st l.1 = some p ∧ p.stock_actual < (l.2 : Int)

/-- If some line exceeds its product's stock, line validation fails with
some error. -/
lemma construirItems_excedida (st : Store) (vid : Nat) :
    ∀ lineas : List (Nat × Nat), (∃ l ∈ lineas, lineaExcedida st l) →
      ∃ e, construirItems st vid lineas = .error e := by
  intro lineas
  induction lineas with
  | nil => intro h; simp at h
  | cons l resto ih =>
    intro h
    obtain ⟨pid, c⟩ := l
    cases hp : buscarProducto st pid with
    | none =>
      exact ⟨.notFoundError "Producto no encontrado", by simp [construirItems, hp]⟩
    | some p =>
      by_cases hact : p.activo = false
      · exact ⟨.notFoundError "Producto no encontrado", by simp [construirItems, hp, hact]⟩
      · by_cases hst : p.stock_actual < (c : Int)
        · exact ⟨.validationError "Stock insuficiente", by simp [construirItems, hp, hact, hst]⟩
        · obtain ⟨l', hl', hex⟩ := h
          rcases List.mem_cons.mp hl' with hcab | hcola
          · obtain ⟨p', hp', hlt⟩ := hex
            rw [hcab] at hp'
            rw [hp] at hp'
            cases Option.some.inj hp'
            rw [hcab] at hlt
            exact absurd hlt hst
          · obtain ⟨e, he⟩ := ih ⟨l', hcola, hex⟩
            exact ⟨e, by simp [construirItems, hp, hact, hst, he]⟩

/-- If every line's product resolves and is active and some line exceeds its
product's stock, line validation fails with precisely the stock
ValidationError. -/
lemma construirItems_excedida_valida (st : Store) (vid : Nat) :
    ∀ lineas : List (Nat × Nat), (∀ l ∈ lineas, lineaValida st l) →
      (∃ l ∈ lineas, lineaExcedida st l) →
      construirItems st vid lineas = .error (.validationError "Stock insuficiente") := by
  intro lineas
  induction lineas with
  | nil => intro _ h; simp at h
  | cons l resto ih =>
    intro hall h
    obtain ⟨pid, c⟩ := l
    obtain ⟨p, hp, hact⟩ := hall (pid, c) (List.mem_cons_self _ _)
    have hact' : ¬p.activo = false := by rw [hact]; simp
    by_cases hst : p.stock_actual < (c : Int)
    · simp [construirItems, hp, hact', hst]
    · obtain ⟨l', hl', hex⟩ := h
      rcases List.mem_cons.mp hl' with hcab | hcola
      · obtain ⟨p', hp', hlt⟩ := hex
        rw [hcab] at hp'
        rw [hp] at hp'
        cases Option.some.inj hp'
        rw [hcab] at hlt
        exact absurd hlt hst
      · have he := ih (fun l hl => hall l (List.mem_cons_of_mem _ hl)) ⟨l', hcola, hex⟩
        simp [construirItems, hp, hact', hst, he]

/-- A line-validation error propagates out of `registrar_venta` unchanged. -/
lemma registrar_venta_error (st : Store) (lineas : List (Nat × Nat)) (actor : Nat)
    (ahora : FechaHora) (e : ApiError) (hne : lineas ≠ [])
    (he : construirItems st st.ventas.length lineas = .error e) :
    registrar_venta st lineas actor ahora = .error e := by
  cases lineas with
  | nil => exact absurd rfl hne
  | cons l resto => simp [registrar_venta, he]

/-- The product of the C2 counterexample store: id 1, active, stock 5. -/
def prodC2 : Producto := ⟨1, "A1", "Uno", "c", 5, 2, 5, 5, "", true⟩

/-- A store holding only `prodC2`. -/
def stC2 : Store := ⟨[prodC2], [], [], []⟩

/-- Two sale lines: the first references the missing product 2, the second
requests 10 units of product 1 whose stock is 5. -/
def lineasC2 : List (Nat × Nat) := [(2, 1), (1, 10)]

/-- C2 counterexample: a request in which a line (product 1, quantity 10)
exceeds that product's current stock (5) can still fail with NotFoundError
instead of ValidationError, when an earlier line references a missing
product — line validation reports the first offending line. -/
theorem venta_excedida_counterexample :
    buscarProducto stC2 1 = some prodC2 ∧ prodC2.stock_actual < (10 : Int) ∧
    (1, 10) ∈ lineasC2 ∧
    registrar_venta stC2 lineasC2 9 fechaW = .error (.notFoundError "Producto no encontrado") := by
  refine ⟨rfl, by decide, by decide, by decide⟩

/-- C2 (amended): for every `registrar_venta` request in which some line's
requested quantity exceeds that (existing) product's current stock, the
operation fails — with ValidationError whenever every line references an
existing active product — and afterwards every product's stock and the
count of persisted sales are unchanged (full rollback). -/
theorem venta_excedida_rechazada (st : Store) (lineas : List (Nat × Nat))
    (actor : Nat) (ahora : FechaHora)
    (hex : ∃ l ∈ lineas, lineaExcedida st l) :
    (∃ e, registrar_venta st lineas actor ahora = .error e) ∧
    correr st (registrar_venta st lineas actor ahora) = st ∧
    ((∀ l ∈ lineas, lineaValida st l) →
      registrar_venta st lineas actor ahora = .error (.validationError "Stock insuficiente")) := by
  have hne : lineas ≠ [] := by
    obtain ⟨l, hl, _⟩ := hex
    intro hnil
    rw [hnil] at hl
    simp at hl
  obtain ⟨e, he⟩ := construirItems_excedida st st.ventas.length lineas hex
  have herr := registrar_venta_error st lineas actor ahora e hne he
  refine ⟨⟨e, herr⟩, by rw [herr]; rfl, fun hall => ?_⟩
  exact registrar_venta_error st lineas actor ahora _ hne
    (construirItems_excedida_valida st st.ventas.length lineas hall hex)

/-- Witness for C2 (amended) at the store `stC2` and the single over-stock
line (product 1, quantity 10). -/
theorem venta_excedida_rechazada_witness :
    (∃ l ∈ [((1 : Nat), (10 : Nat))], lineaExcedida stC2 l) ∧
    ((∃ e, registrar_venta stC2 [(1, 10)] 9 fechaW = .error e) ∧
     correr stC2 (registrar_venta stC2 [(1, 10)] 9 fechaW) = stC2 ∧
     ((∀ l ∈ [((1 : Nat), (10 : Nat))], lineaValida stC2 l) →
       registrar_venta stC2 [(1, 10)] 9 fechaW = .error (.validationError "Stock insuficiente"))) :=
  ⟨⟨(1, 10), by decide, ⟨prodC2, rfl, by decide⟩⟩,
    venta_excedida_rechazada stC2 [(1, 10)] 9 fechaW
      ⟨(1, 10), by decide, ⟨prodC2, rfl, by decide⟩⟩⟩

/-- The spec-scenario sale after being voided. -/
def ventaAnuladaW : Venta := { ventaW with estado := "anulada" }

/-- A store like `stW` whose only sale is already voided. -/
def stC4 : Store :=
  ⟨[productoW], [ventaAnuladaW], [⟨1, .venta, 3, 10, 7, "Venta", 7, fechaW⟩], []⟩

/-- C4: for every sale whose status is not `completada` (in particular an
already-voided sale), `anular_venta` fails with ConflictError, and
afterwards no new movement rows exist and the sale's status is unchanged. -/
theorem anulacion_doble_conflicto (st : Store) (vid : Nat) (actor : Nat)
    (motivo : String) (ahora : FechaHora) (v : Venta)
    (hv : buscarVenta st vid = some v) (hest : v.estado ≠ "completada") :
    anular_venta st vid actor motivo ahora
      = .error (.conflictError "Solo se pueden anular ventas completadas") ∧
    (correr st (anular_venta st vid actor motivo ahora)).movimientos = st.movimientos ∧
    buscarVenta (correr st (anular_venta st vid actor motivo ahora)) vid = some v := by
  have h : anular_venta st vid actor motivo ahora
      = .error (.conflictError "Solo se pueden anular ventas completadas") := by
    simp [anular_venta, hv, hest]
  exact ⟨h, by rw [h]; rfl, by rw [h]; exact hv⟩

/-- Witness for C4 at the store `stC4`, whose sale 0 is already voided. -/
theorem anulacion_doble_conflicto_witness :
    buscarVenta stC4 0 = some ventaAnuladaW ∧ ventaAnuladaW.estado ≠ "completada" ∧
    (anular_venta stC4 0 7 "motivo" fechaW
       = .error (.conflictError "Solo se pueden anular ventas completadas") ∧
     (correr stC4 (anular_venta stC4 0 7 "motivo" fechaW)).movimientos = stC4.movimientos ∧
     buscarVenta (correr stC4 (anular_venta stC4 0 7 "motivo" fechaW)) 0 = some ventaAnuladaW) :=
  ⟨by decide, by decide,
    anulacion_doble_conflicto stC4 0 7 "motivo" fechaW ventaAnuladaW (by decide) (by decide)⟩

/-- Splitting the per-product quantity sum of a list of sale items at its
head. -/
lemma sumaCantidades_cons (it : ItemVenta) (resto : List ItemVenta) (pid : Nat) :
    sumaCantidades (it :: resto) pid
      = (if it.producto_id = pid then (it.cantidad : Int) else 0) + sumaCantidades resto pid := by
  unfold sumaCantidades
  by_cases h : it.producto_id = pid
  · simp [List.filter_cons, h]
  · simp [List.filter_cons, h]

/-- What one successful void-restock does to the store. -/
lemma restaurarItem_ok {actor : Nat} {motivo : String} {ahora : FechaHora} {st : Store}
    {it : ItemVenta} {p : Producto} (hp : buscarProducto st it.producto_id = some p) :
    ∃ st', restaurarItem actor motivo ahora st it = .ok st' ∧
      stockDe st' it.producto_id = stockDe st it.producto_id + (it.cantidad : Int) ∧
      (∀ qid, qid ≠ it.producto_id → stockDe st' qid = stockDe st qid) ∧
      (∃ m : MovimientoInventario, st'.movimientos = st.movimientos ++ [m] ∧
        m.producto_id = it.producto_id ∧ m.tipo_movimiento = .anulacion ∧
        m.cantidad = it.cantidad) ∧
      st'.ventas = st.ventas ∧ st'.auditorias = st.auditorias ∧
      (∀ qid, (buscarProducto st' qid).isSome = (buscarProducto st qid).isSome) := by
  refine ⟨{ st with
      productos := actualizarStock st.productos it.producto_id
        (p.stock_actual + (it.cantidad : Int)),
      movimientos := st.movimientos ++
        [{ producto_id := it.producto_id, tipo_movimiento := .anulacion,
           cantidad := it.cantidad, stock_anterior := p.stock_actual,
           stock_nuevo := p.stock_actual + (it.cantidad : Int),
           motivo := motivo, usuario_id := actor, fecha_movimiento := ahora }] },
    by simp [restaurarItem, hp], ?_, ?_, ⟨_, rfl, rfl, rfl, rfl⟩, rfl, rfl, ?_⟩
  · unfold stockDe buscarProducto
    show ((((actualizarStock st.productos it.producto_id
        (p.stock_actual + (it.cantidad : Int))).find?
        (fun q => q.id == it.producto_id)).map Producto.stock_actual).getD 0) = _
    rw [buscar_actualizar_eq]
    unfold buscarProducto at hp
    rw [hp]
    rfl
  · intro qid hq
    unfold stockDe buscarProducto
    show ((((actualizarStock st.productos it.producto_id
        (p.stock_actual + (it.cantidad : Int))).find?
        (fun q => q.id == qid)).map Producto.stock_actual).getD 0) = _
    rw [buscar_actualizar_ne _ _ _ _ hq]
  · intro qid
    by_cases hq : qid = it.producto_id
    · subst hq
      unfold buscarProducto
      show ((actualizarStock st.productos it.producto_id
          (p.stock_actual + (it.cantidad : Int))).find?
          (fun q => q.id == it.producto_id)).isSome = _
      rw [buscar_actualizar_eq]
      unfold buscarProducto at hp
      rw [hp]
      rfl
    · unfold buscarProducto
      show ((actualizarStock st.productos it.producto_id
          (p.stock_actual + (it.cantidad : Int))).find?
          (fun q => q.id == qid)).isSome = _
      rw [buscar_actualizar_ne _ _ _ _ hq]

/-- Restocking all items of a sale succeeds whenever every item's product
resolves, adds per product exactly the summed item quantities, appends one
void-restock row per item, and leaves sales and audit rows untouched. -/
lemma restaurarItems_spec (actor : Nat) (motivo : String) (ahora : FechaHora) :
    ∀ (items : List ItemVenta) (st : Store),
      (∀ it ∈ items, (buscarProducto st it.producto_id).isSome = true) →
      ∃ st', restaurarItems actor motivo ahora st items = .ok st' ∧
        (∀ pid, stockDe st' pid = stockDe st pid + sumaCantidades items pid) ∧
        (∃ ms, st'.movimientos = st.movimientos ++ ms ∧
          List.Forall₂ (fun (it : ItemVenta) (m : MovimientoInventario) =>
            m.producto_id = it.producto_id ∧ m.tipo_movimiento = TipoMovimiento.anulacion ∧
            m.cantidad = it.cantidad) items ms) ∧
        st'.ventas = st.ventas ∧ st'.auditorias = st.auditorias := by
  intro items
  induction items with
  | nil =>
    intro st _
    exact ⟨st, rfl, fun pid => by simp [sumaCantidades], ⟨[], by simp, .nil⟩, rfl, rfl⟩
  | cons it resto ih =>
    intro st hall
    obtain ⟨p, hp⟩ := Option.isSome_iff_exists.mp (hall it (List.mem_cons_self _ _))
    obtain ⟨st1, h1, hs1, hq1, ⟨m, hm, hmp, hmt, hmc⟩, hv1, ha1, hpres⟩ := restaurarItem_ok hp
    have hall1 : ∀ i ∈ resto, (buscarProducto st1 i.producto_id).isSome = true := by
      intro i hi
      rw [hpres i.producto_id]
      exact hall i (List.mem_cons_of_mem _ hi)
    obtain ⟨st2, h2, hs2, ⟨ms, hms, hfa⟩, hv2, ha2⟩ := ih st1 hall1
    refine ⟨st2, ?_, ?_, ⟨m :: ms, ?_, .cons ⟨hmp, hmt, hmc⟩ hfa⟩, by rw [hv2, hv1],
      by rw [ha2, ha1]⟩
    · show restaurarItems actor motivo ahora st (it :: resto) = .ok st2
      unfold restaurarItems
      rw [h1]
      exact h2
    · intro pid
      rw [hs2 pid, sumaCantidades_cons]
      by_cases hpid : pid = it.producto_id
      · subst hpid
        rw [hs1]
        simp
        omega
      · rw [hq1 pid hpid]
        have : ¬it.producto_id = pid := fun hh => hpid hh.symm
        simp [this]
    · rw [hms, hm, List.append_assoc]
      rfl

/-- Searching the voided-status update under the voided sale's id. -/
lemma buscar_anular_eq (vs : List Venta) (vid : Nat) :
    (vs.map (fun w => if w.id == vid then { w with estado := "anulada" } else w)).find?
      (fun w => w.id == vid)
      = (vs.find? (fun w => w.id == vid)).map (fun w => { w with estado := "anulada" }) :=
  find?_map_si_eq (fun w => w.id) (fun w => { w with estado := "anulada" })
    (fun _ => rfl) vs vid

/-- C3: for every sale in state `completada` (all of whose items reference
existing products, as the schema's foreign keys guarantee), `anular_venta`
succeeds, sets the sale's status to `anulada`, issues one void-restock
movement per item with exactly the original quantity, and leaves every
product's stock higher by exactly the summed quantities the sale had
deducted — so a product whose stock was pre-sale value minus the deduction
is back at its pre-sale value. -/
theorem anulacion_restaura_stock (st : Store) (vid : Nat) (actor : Nat)
    (motivo : String) (ahora : FechaHora) (v : Venta)
    (hv : buscarVenta st vid = some v) (hest : v.estado = "completada")
    (hfk : ∀ it ∈ v.items, (buscarProducto st it.producto_id).isSome = true) :
    ∃ st', anular_venta st vid actor motivo ahora = .ok st' ∧
      (∃ v', buscarVenta st' vid = some v' ∧ v'.estado = "anulada" ∧ v'.items = v.items) ∧
      (∃ ms, st'.movimientos = st.movimientos ++ ms ∧
        List.Forall₂ (fun (it : ItemVenta) (m : MovimientoInventario) =>
          m.producto_id = it.producto_id ∧ m.tipo_movimiento = TipoMovimiento.anulacion ∧
          m.cantidad = it.cantidad) v.items ms) ∧
      (∀ pid, stockDe st' pid = stockDe st pid + sumaCantidades v.items pid) ∧
      (∀ pid preVenta, stockDe st pid = preVenta - sumaCantidades v.items pid →
        stockDe st' pid = preVenta) := by
  obtain ⟨st1, h1, hs1, ⟨ms, hms, hfa⟩, hv1, ha1⟩ :=
    restaurarItems_spec actor motivo ahora v.items st hfk
  refine ⟨{ st1 with
      ventas := st1.ventas.map
        (fun w => if w.id == vid then { w with estado := "anulada" } else w),
      auditorias := st1.auditorias ++
        [{ usuario_id := actor, tipo_accion := "anulacion_venta",
           descripcion := motivo, fecha_accion := ahora }] },
    ?_, ?_, ⟨ms, hms, hfa⟩, hs1, ?_⟩
  · simp [anular_venta, hv, hest, h1]
  · refine ⟨{ v with estado := "anulada" }, ?_, rfl, rfl⟩
    unfold buscarVenta
    show (st1.ventas.map
        (fun w => if w.id == vid then { w with estado := "anulada" } else w)).find?
        (fun w => w.id == vid) = _
    rw [hv1, buscar_anular_eq]
    unfold buscarVenta at hv
    rw [hv]
    rfl
  · intro pid preVenta hpre
    have h := hs1 pid
    show stockDe st1 pid = preVenta
    omega

/-- Witness for C3 at the store `stW` and its completed sale 0. -/
theorem anulacion_restaura_stock_witness :
    (buscarVenta stW 0 = some ventaW ∧ ventaW.estado = "completada" ∧
     (∀ it ∈ ventaW.items, (buscarProducto stW it.producto_id).isSome = true)) ∧
    (∃ st', anular_venta stW 0 7 "devolucion" fechaW = .ok st' ∧
      (∃ v', buscarVenta st' 0 = some v' ∧ v'.estado = "anulada" ∧ v'.items = ventaW.items) ∧
      (∃ ms, st'.movimientos = stW.movimientos ++ ms ∧
        List.Forall₂ (fun (it : ItemVenta) (m : MovimientoInventario) =>
          m.producto_id = it.producto_id ∧ m.tipo_movimiento = TipoMovimiento.anulacion ∧
          m.cantidad = it.cantidad) ventaW.items ms) ∧
      (∀ pid, stockDe st' pid = stockDe stW pid + sumaCantidades ventaW.items pid) ∧
      (∀ pid preVenta, stockDe stW pid = preVenta - sumaCantidades ventaW.items pid →
        stockDe st' pid = preVenta)) :=
  ⟨⟨rfl, rfl, by decide⟩,
    anulacion_restaura_stock stW 0 7 "devolucion" fechaW ventaW rfl rfl (by decide)⟩

/-- A product-creation payload with all optional fields absent. -/
def datosPW : DatosProducto := ⟨"B2", "Dos", "c", 8, 3, none, none, none⟩

/-- A product-update payload. -/
def datosAW : DatosActualizacion := ⟨"UnoBis", "c2", 6, 2, 4, none⟩

/-- An inventory-movement payload: two units into product 1. -/
def datosMW : DatosMovimiento := ⟨1, .entrada, 2, "compra"⟩

/-- C5: for every authenticated caller whose role is not `administradora`,
product create, product update, product deactivate and sale void each fail
with the HTTP 403 AuthorizationError and leave the store unchanged, while
the remaining mutating operations (sale registration, inventory movement)
behave identically for any two callers with the same user id regardless of
their roles. -/
theorem solo_admin_muta_productos_y_anula (st : Store) (u : Usuario)
    (datosP : DatosProducto) (nuevoId : Nat) (datosA : DatosActualizacion)
    (pidA pidE vid : Nat) (motivo : String) (lineas : List (Nat × Nat))
    (datosM : DatosMovimiento) (ahora : FechaHora)
    (h : u.rol ≠ "administradora") :
    crear_producto st u datosP nuevoId ahora
      = .error ⟨403, "No tiene permisos para crear productos"⟩ ∧
    actualizar_producto st u pidA datosA ahora
      = .error ⟨403, "No tiene permisos para editar productos"⟩ ∧
    eliminar_producto st u pidE ahora
      = .error ⟨403, "No tiene permisos para eliminar productos"⟩ ∧
    anular_venta_http st u vid motivo ahora
      = .error ⟨403, "No tiene permisos para anular ventas"⟩ ∧
    correrHttp st (crear_producto st u datosP nuevoId ahora) = st ∧
    correrHttp st (actualizar_producto st u pidA datosA ahora) = st ∧
    correrHttp st (eliminar_producto st u pidE ahora) = st ∧
    correrHttp st (anular_venta_http st u vid motivo ahora) = st ∧
    (∀ u2 : Usuario, u2.usuario_id = u.usuario_id →
      crear_venta st u2 lineas ahora = crear_venta st u lineas ahora ∧
      registrar_movimiento_inventario st u2 datosM ahora
        = registrar_movimiento_inventario st u datosM ahora) := by
  have h1 : crear_producto st u datosP nuevoId ahora
      = .error ⟨403, "No tiene permisos para crear productos"⟩ := by
    simp [crear_producto, h]
  have h2 : actualizar_producto st u pidA datosA ahora
      = .error ⟨403, "No tiene permisos para editar productos"⟩ := by
    simp [actualizar_producto, h]
  have h3 : eliminar_producto st u pidE ahora
      = .error ⟨403, "No tiene permisos para eliminar productos"⟩ := by
    simp [eliminar_producto, h]
  have h4 : anular_venta_http st u vid motivo ahora
      = .error ⟨403, "No tiene permisos para anular ventas"⟩ := by
    simp [anular_venta_http, h]
  refine ⟨h1, h2, h3, h4, by rw [h1]; rfl, by rw [h2]; rfl, by rw [h3]; rfl,
    by rw [h4]; rfl, ?_⟩
  intro u2 h5
  constructor
  · unfold crear_venta
    rw [h5]
  · unfold registrar_movimiento_inventario
    rw [h5]

/-- Witness for C5 with the staff caller `usuarioVendedora` on the store
`stW`. -/
theorem solo_admin_muta_productos_y_anula_witness :
    usuarioVendedora.rol ≠ "administradora" ∧
    (crear_producto stW usuarioVendedora datosPW 2 fechaW
       = .error ⟨403, "No tiene permisos para crear productos"⟩ ∧
     actualizar_producto stW usuarioVendedora 1 datosAW fechaW
       = .error ⟨403, "No tiene permisos para editar productos"⟩ ∧
     eliminar_producto stW usuarioVendedora 1 fechaW
       = .error ⟨403, "No tiene permisos para eliminar productos"⟩ ∧
     anular_venta_http stW usuarioVendedora 0 "m" fechaW
       = .error ⟨403, "No tiene permisos para anular ventas"⟩ ∧
     correrHttp stW (crear_producto stW usuarioVendedora datosPW 2 fechaW) = stW ∧
     correrHttp stW (actualizar_producto stW usuarioVendedora 1 datosAW fechaW) = stW ∧
     correrHttp stW (eliminar_producto stW usuarioVendedora 1 fechaW) = stW ∧
     correrHttp stW (anular_venta_http stW usuarioVendedora 0 "m" fechaW) = stW ∧
     (∀ u2 : Usuario, u2.usuario_id = usuarioVendedora.usuario_id →
       crear_venta stW u2 [(1, 2)] fechaW = crear_venta stW usuarioVendedora [(1, 2)] fechaW ∧
       registrar_movimiento_inventario stW u2 datosMW fechaW
         = registrar_movimiento_inventario stW usuarioVendedora datosMW fechaW)) :=
  ⟨by decide,
    solo_admin_muta_productos_y_anula stW usuarioVendedora datosPW 2 datosAW 1 1 0 "m"
      [(1, 2)] datosMW fechaW (by decide)⟩

/-- The per-line stock deductions of a sale touch neither the sales table
nor the audit table. -/
lemma aplicarLineas_preserva (actor : Nat) (ahora : FechaHora) :
    ∀ (lineas : List (Nat × Nat)) (st st' : Store),
      aplicarLineas actor ahora st lineas = .ok st' →
      st'.ventas = st.ventas ∧ st'.auditorias = st.auditorias := by
  intro lineas
  induction lineas with
  | nil =>
    intro st st' h
    have hst := Except.ok.inj h
    subst hst
    exact ⟨rfl, rfl⟩
  | cons l resto ih =>
    intro st st' h
    obtain ⟨pid, c⟩ := l
    unfold aplicarLineas at h
    split at h
    · exact absurd h (by simp)
    · rename_i st1 h1
      obtain ⟨_, _, _, hv, ha, _⟩ := aplicarMovimiento_ok h1
      obtain ⟨hv2, ha2⟩ := ih st1 st' h
      exact ⟨by rw [hv2, hv], by rw [ha2, ha]⟩

/-- A single void-restock touches neither the sales table nor the audit
table. -/
lemma restaurarItem_preserva {actor : Nat} {motivo : String} {ahora : FechaHora}
    {st st' : Store} {it : ItemVenta}
    (h : restaurarItem actor motivo ahora st it = .ok st') :
    st'.ventas = st.ventas ∧ st'.auditorias = st.auditorias := by
  unfold restaurarItem at h
  split at h
  · exact absurd h (by simp)
  · have hst := Except.ok.inj h
    subst hst
    exact ⟨rfl, rfl⟩

/-- Restocking a list of items touches neither the sales table nor the
audit table. -/
lemma restaurarItems_preserva (actor : Nat) (motivo : String) (ahora : FechaHora) :
    ∀ (items : List ItemVenta) (st st' : Store),
      restaurarItems actor motivo ahora st items = .ok st' →
      st'.ventas = st.ventas ∧ st'.auditorias = st.auditorias := by
  intro items
  induction items with
  | nil =>
    intro st st' h
    have hst := Except.ok.inj h
    subst hst
    exact ⟨rfl, rfl⟩
  | cons it resto ih =>
    intro st st' h
    unfold restaurarItems at h
    split at h
    · exact absurd h (by simp)
    · rename_i st1 h1
      obtain ⟨hv, ha⟩ := restaurarItem_preserva h1
      obtain ⟨hv2, ha2⟩ := ih st1 st' h
      exact ⟨by rw [hv2, hv], by rw [ha2, ha]⟩

/-- A successful sale registration appends exactly its one audit row. -/
lemma registrar_venta_ok_auditoria {st : Store} {lineas : List (Nat × Nat)}
    {actor : Nat} {ahora : FechaHora} {st' : Store}
    (h : registrar_venta st lineas actor ahora = .ok st') :
    st'.auditorias = st.auditorias ++
      [⟨actor, "registro_venta", "Venta registrada", ahora⟩] := by
  unfold registrar_venta at h
  split at h
  · exact absurd h (by simp)
  · split at h
    · exact absurd h (by simp)
    · split at h
      · exact absurd h (by simp)
      · rename_i st1 h1
        have hst := Except.ok.inj h
        subst hst
        obtain ⟨_, ha⟩ := aplicarLineas_preserva actor ahora lineas st st1 h1
        show st1.auditorias ++ _ = _
        rw [ha]

/-- A successful sale void appends exactly its one audit row. -/
lemma anular_venta_ok_auditoria {st : Store} {vid : Nat} {actor : Nat}
    {motivo : String} {ahora : FechaHora} {st' : Store}
    (h : anular_venta st vid actor motivo ahora = .ok st') :
    st'.auditorias = st.auditorias ++ [⟨actor, "anulacion_venta", motivo, ahora⟩] := by
  unfold anular_venta at h
  split at h
  · exact absurd h (by simp)
  · rename_i v hv
    split at h
    · split at h
      · exact absurd h (by simp)
      · rename_i st1 h1
        have hst := Except.ok.inj h
        subst hst
        obtain ⟨_, ha⟩ := restaurarItems_preserva actor motivo ahora v.items st st1 h1
        show st1.auditorias ++ _ = _
        rw [ha]
    · exact absurd h (by simp)

/-- C6: each of the six mutating operations — product create, product
update, product deactivate, sale registration, sale void, inventory
movement — appends on success exactly one `RegistroAuditoria` row, which
records the acting user's id, the operation's action kind, and a
human-readable description of what happened. -/
theorem auditoria_unica_por_mutacion :
    (∀ (st : Store) (u : Usuario) (datos : DatosProducto) (nid : Nat)
       (ahora : FechaHora) (st' : Store),
       crear_producto st u datos nid ahora = .ok st' →
       st'.auditorias = st.auditorias ++ [⟨u.usuario_id, "creacion_producto",
         "Producto creado: " ++ datos.nombre ++ " (" ++ datos.codigo ++ ")", ahora⟩]) ∧
    (∀ (st : Store) (u : Usuario) (pid : Nat) (datos : DatosActualizacion)
       (ahora : FechaHora) (st' : Store),
       actualizar_producto st u pid datos ahora = .ok st' →
       st'.auditorias = st.auditorias ++ [⟨u.usuario_id, "edicion_producto",
         "Producto actualizado: " ++ datos.nombre ++ " (ID: " ++ toString pid ++ ")", ahora⟩]) ∧
    (∀ (st : Store) (u : Usuario) (pid : Nat) (ahora : FechaHora) (p : Producto)
       (st' : Store),
       buscarProducto st pid = some p →
       eliminar_producto st u pid ahora = .ok st' →
       st'.auditorias = st.auditorias ++ [⟨u.usuario_id, "eliminacion_producto",
         "Producto desactivado: " ++ p.nombre ++ " (ID: " ++ toString pid ++ ")", ahora⟩]) ∧
    (∀ (st : Store) (u : Usuario) (lineas : List (Nat × Nat)) (ahora : FechaHora)
       (st' : Store),
       crear_venta st u lineas ahora = .ok st' →
       st'.auditorias = st.auditorias ++
         [⟨u.usuario_id, "registro_venta", "Venta registrada", ahora⟩]) ∧
    (∀ (st : Store) (u : Usuario) (vid : Nat) (motivo : String) (ahora : FechaHora)
       (st' : Store),
       anular_venta_http st u vid motivo ahora = .ok st' →
       st'.auditorias = st.auditorias ++
         [⟨u.usuario_id, "anulacion_venta", motivo, ahora⟩]) ∧
    (∀ (st : Store) (u : Usuario) (datos : DatosMovimiento) (ahora : FechaHora)
       (st' : Store),
       registrar_movimiento_inventario st u datos ahora = .ok st' →
       st'.auditorias = st.auditorias ++
         [⟨u.usuario_id, "movimiento_inventario", datos.motivo, ahora⟩]) := by
  refine ⟨?_, ?_, ?_, ?_, ?_, ?_⟩
  · intro st u datos nid ahora st' h
    unfold crear_producto at h
    split at h
    · exact absurd h (by simp)
    · split at h
      · exact absurd h (by simp)
      · have hst := Except.ok.inj h
        subst hst
        rfl
  · intro st u pid datos ahora st' h
    unfold actualizar_producto at h
    split at h
    · exact absurd h (by simp)
    · split at h
      · exact absurd h (by simp)
      · have hst := Except.ok.inj h
        subst hst
        rfl
  · intro st u pid ahora p st' hp h
    unfold eliminar_producto at h
    split at h
    · exact absurd h (by simp)
    · split at h
      · exact absurd h (by simp)
      · rename_i q hq
        rw [hp] at hq
        cases Option.some.inj hq
        have hst := Except.ok.inj h
        subst hst
        rfl
  · intro st u lineas ahora st' h
    unfold crear_venta at h
    split at h
    · exact absurd h (by simp)
    · rename_i st1 h1
      have hst := Except.ok.inj h
      subst hst
      exact registrar_venta_ok_auditoria h1
  · intro st u vid motivo ahora st' h
    unfold anular_venta_http at h
    split at h
    · exact absurd h (by simp)
    · split at h
      · exact absurd h (by simp)
      · rename_i st1 h1
        have hst := Except.ok.inj h
        subst hst
        exact anular_venta_ok_auditoria h1
  · intro st u datos ahora st' h
    unfold registrar_movimiento_inventario at h
    split at h
    · exact absurd h (by simp)
    · rename_i st1 h1
      have hst := Except.ok.inj h
      subst hst
      obtain ⟨_, _, _, _, ha, _⟩ := registrar_movimiento_ok h1
      exact ha

/-- Witness for C6: creating product B2 as the administrator on `stC2`
appends exactly the one creation audit row. -/
theorem auditoria_unica_por_mutacion_witness :
    crear_producto stC2 usuarioAdmin datosPW 2 fechaW
      = .ok (correrHttp stC2 (crear_producto stC2 usuarioAdmin datosPW 2 fechaW)) ∧
    (correrHttp stC2 (crear_producto stC2 usuarioAdmin datosPW 2 fechaW)).auditorias
      = stC2.auditorias ++ [⟨usuarioAdmin.usuario_id, "creacion_producto",
          "Producto creado: " ++ datosPW.nombre ++ " (" ++ datosPW.codigo ++ ")", fechaW⟩] :=
  ⟨by decide,
    auditoria_unica_por_mutacion.1 stC2 usuarioAdmin datosPW 2 fechaW _ (by decide)⟩

/-- A list is pointwise related to its image under a map. -/
lemma forall₂_map_self {α β : Type} (r : α → β → Prop) (f : α → β)
    (h : ∀ a, r a (f a)) : ∀ l : List α, List.Forall₂ r l (l.map f)
  | [] => .nil
  | a :: t => .cons (h a) (forall₂_map_self r f h t)

/-- C9: a successful product update (PUT) changes at most name, category,
sale price, cost, minimum stock and description of the targeted product:
every product keeps its id, code, current stock and active flag, products
other than the targeted one are entirely unchanged, and the sales and
movement tables are untouched. -/
theorem actualizacion_preserva_stock_codigo_activo (st : Store) (u : Usuario)
    (pid : Nat) (datos : DatosActualizacion) (ahora : FechaHora) (st' : Store)
    (h : actualizar_producto st u pid datos ahora = .ok st') :
    List.Forall₂ (fun (p q : Producto) =>
      q.id = p.id ∧ q.codigo = p.codigo ∧ q.stock_actual = p.stock_actual ∧
      q.activo = p.activo ∧ (p.id ≠ pid → q = p)) st.productos st'.productos ∧
    st'.ventas = st.ventas ∧ st'.movimientos = st.movimientos := by
  unfold actualizar_producto at h
  split at h
  · exact absurd h (by simp)
  · split at h
    · exact absurd h (by simp)
    · have hst := Except.ok.inj h
      subst hst
      refine ⟨?_, rfl, rfl⟩
      apply forall₂_map_self
      intro p
      by_cases hid : p.id = pid
      · have hb : (p.id == pid) = true := by simp [hid]
        rw [if_pos hb]
        exact ⟨rfl, rfl, rfl, rfl, fun hne => absurd hid hne⟩
      · have hb : ¬((p.id == pid) = true) := by simp [hid]
        rw [if_neg hb]
        exact ⟨rfl, rfl, rfl, rfl, fun _ => rfl⟩

/-- Witness for C9: the administrator updates product 1 of `stW`. -/
theorem actualizacion_preserva_stock_codigo_activo_witness :
    actualizar_producto stW usuarioAdmin 1 datosAW fechaW
      = .ok (correrHttp stW (actualizar_producto stW usuarioAdmin 1 datosAW fechaW)) ∧
    (List.Forall₂ (fun (p q : Producto) =>
      q.id = p.id ∧ q.codigo = p.codigo ∧ q.stock_actual = p.stock_actual ∧
      q.activo = p.activo ∧ (p.id ≠ 1 → q = p)) stW.productos
      (correrHttp stW (actualizar_producto stW usuarioAdmin 1 datosAW fechaW)).productos ∧
     (correrHttp stW (actualizar_producto stW usuarioAdmin 1 datosAW fechaW)).ventas = stW.ventas ∧
     (correrHttp stW (actualizar_producto stW usuarioAdmin 1 datosAW fechaW)).movimientos
       = stW.movimientos) :=
  ⟨by decide,
    actualizacion_preserva_stock_codigo_activo stW usuarioAdmin 1 datosAW fechaW _ (by decide)⟩

/-- C10: a successful product creation appends exactly one product; when
the optional payload fields are absent it has stock 0, minimum stock 5 and
an empty description, and when they are present their given values are
used; the required fields are taken verbatim and the product starts
active. -/
theorem creacion_valores_por_defecto (st : Store) (u : Usuario)
    (datos : DatosProducto) (nid : Nat) (ahora : FechaHora) (st' : Store)
    (h : crear_producto st u datos nid ahora = .ok st') :
    ∃ p : Producto, st'.productos = st.productos ++ [p] ∧
      (datos.stock_actual = none → p.stock_actual = 0) ∧
      (∀ v, datos.stock_actual = some v → p.stock_actual = v) ∧
      (datos.stock_minimo = none → p.stock_minimo = 5) ∧
      (∀ v, datos.stock_minimo = some v → p.stock_minimo = v) ∧
      (datos.descripcion = none → p.descripcion = "") ∧
      (∀ d, datos.descripcion = some d → p.descripcion = d) ∧
      p.codigo = datos.codigo ∧ p.nombre = datos.nombre ∧ p.activo = true := by
  unfold crear_producto at h
  split at h
  · exact absurd h (by simp)
  · split at h
    · exact absurd h (by simp)
    · have hst := Except.ok.inj h
      subst hst
      refine ⟨_, rfl, ?_, ?_, ?_, ?_, ?_, ?_, rfl, rfl, rfl⟩
      · intro hn
        show datos.stock_actual.getD 0 = 0
        rw [hn]
        rfl
      · intro v hv
        show datos.stock_actual.getD 0 = v
        rw [hv]
        rfl
      · intro hn
        show datos.stock_minimo.getD 5 = 5
        rw [hn]
        rfl
      · intro v hv
        show datos.stock_minimo.getD 5 = v
        rw [hv]
        rfl
      · intro hn
        show datos.descripcion.getD "" = ""
        rw [hn]
        rfl
      · intro d hd
        show datos.descripcion.getD "" = d
        rw [hd]
        rfl

/-- Witness for C10: creating product B2 (optional fields absent) on
`stC2`. -/
theorem creacion_valores_por_defecto_witness :
    crear_producto stC2 usuarioAdmin datosPW 2 fechaW
      = .ok (correrHttp stC2 (crear_producto stC2 usuarioAdmin datosPW 2 fechaW)) ∧
    (∃ p : Producto,
      (correrHttp stC2 (crear_producto stC2 usuarioAdmin datosPW 2 fechaW)).productos
        = stC2.productos ++ [p] ∧
      (datosPW.stock_actual = none → p.stock_actual = 0) ∧
      (∀ v, datosPW.stock_actual = some v → p.stock_actual = v) ∧
      (datosPW.stock_minimo = none → p.stock_minimo = 5) ∧
      (∀ v, datosPW.stock_minimo = some v → p.stock_minimo = v) ∧
      (datosPW.descripcion = none → p.descripcion = "") ∧
      (∀ d, datosPW.descripcion = some d → p.descripcion = d) ∧
      p.codigo = datosPW.codigo ∧ p.nombre = datosPW.nombre ∧ p.activo = true) :=
  ⟨by decide,
    creacion_valores_por_defecto stC2 usuarioAdmin datosPW 2 fechaW _ (by decide)⟩

/-- The instant used for the C7 counterexample: 12:30:00.000500 of day 0. -/
def ahoraC7 : FechaHora := ⟨0, 12, 30, 0, 500⟩

/-- C7 counterexample: called without a date at 12:30:00.000500, the sales
listing's period does not end at the current instant but at 23:59:59 of the
current day (microsecond preserved), and its start is not the start of the
current day either — the microsecond of "now" leaks into it. -/
theorem periodo_por_defecto_counterexample :
    (rangoFechasVentas ahoraC7 none).2 ≠ ahoraC7 ∧
    (rangoFechasVentas ahoraC7 none).2 = reemplazar ahoraC7 23 59 59 ∧
    (rangoFechasVentas ahoraC7 none).1 ≠ inicioDelDia ahoraC7 ∧
    (rangoFechasVentas ahoraC7 none).1 = reemplazar ahoraC7 0 0 0 := by
  refine ⟨by decide, rfl, by decide, rfl⟩

/-- C7 (amended): when the sales listing is invoked without a date, both
period bounds are derived from the current instant: the start keeps the
current day and has the time fields replaced by 00:00:00, the end keeps the
current day and has the time fields replaced by 23:59:59, and both keep the
current instant's microsecond — so the end is the last second of the
current day rather than "now".  With a date given, the period runs from
that instant to the same instant with the time replaced by 23:59:59. -/
theorem periodo_por_defecto_obtener_ventas (ahora : FechaHora) (f : FechaHora) :
    (rangoFechasVentas ahora none).1.dia = ahora.dia ∧
    (rangoFechasVentas ahora none).1.hora = 0 ∧
    (rangoFechasVentas ahora none).1.minuto = 0 ∧
    (rangoFechasVentas ahora none).1.segundo = 0 ∧
    (rangoFechasVentas ahora none).1.microsegundo = ahora.microsegundo ∧
    (rangoFechasVentas ahora none).2.dia = ahora.dia ∧
    (rangoFechasVentas ahora none).2.hora = 23 ∧
    (rangoFechasVentas ahora none).2.minuto = 59 ∧
    (rangoFechasVentas ahora none).2.segundo = 59 ∧
    (rangoFechasVentas ahora none).2.microsegundo = ahora.microsegundo ∧
    (rangoFechasVentas ahora (some f)).1 = f ∧
    (rangoFechasVentas ahora (some f)).2 = reemplazar f 23 59 59 :=
  ⟨rfl, rfl, rfl, rfl, rfl, rfl, rfl, rfl, rfl, rfl, rfl, rfl⟩

/-- A store with no records at all. -/
def stVacio : Store := ⟨[], [], [], []⟩

/-- C8: `obtener_indicadores_ventas` always returns a defined result (it is
a total function of the store and the optional period) and, whenever the
prior period of equal length has zero sales, its percentage delta is null —
the division by the prior total is never performed on zero. -/
theorem indicadores_previo_cero_delta_nulo (st : Store) (ahora : FechaHora)
    (inicio fin : Option FechaHora)
    (h : (obtener_indicadores_ventas st ahora inicio fin).total_anterior = 0) :
    (obtener_indicadores_ventas st ahora inicio fin).delta_porcentual = none := by
  have h' : totalEnRango st
      (clave (inicio.getD (inicioDelDia ahora))
        - (clave (fin.getD ahora) - clave (inicio.getD (inicioDelDia ahora))))
      (clave (inicio.getD (inicioDelDia ahora))) = 0 := h
  show calcularDelta
    (totalEnRango st
      (clave (inicio.getD (inicioDelDia ahora))
        - (clave (fin.getD ahora) - clave (inicio.getD (inicioDelDia ahora))))
      (clave (inicio.getD (inicioDelDia ahora))))
    (totalEnRango st (clave (inicio.getD (inicioDelDia ahora))) (clave (fin.getD ahora)))
    = none
  rw [h']
  rfl

/-- Witness for C8 on the empty store, whose prior-period total is zero. -/
theorem indicadores_previo_cero_delta_nulo_witness :
    (obtener_indicadores_ventas stVacio fechaW none none).total_anterior = 0 ∧
    (obtener_indicadores_ventas stVacio fechaW none none).delta_porcentual = none :=
  ⟨by decide, indicadores_previo_cero_delta_nulo stVacio fechaW none none (by decide)⟩
